import Mathlib

/-!
Verification of the potluck organizer's allocation / ownership core.

The development shallowly embeds the SQLAlchemy data model (`app/models.py`),
the CRUD layer (`app/crud.py`) and the mutation route handlers
(`app/routes/admin.py`, `app/routes/potluck.py`).  The relational store is a
record of row lists; each route handler is a pure function from a store and a
browser session to an updated store plus an HTTP-level outcome.

Two places of the source raise Python `TypeError` at runtime and are embedded
as such (see the comments at `crud.create_category` and `potluck.claim_item`):
`models.Category` declares no `max_items` column although the rest of the code
uses one, and `crud.create_claim` has no `session_id` parameter although its
caller passes one by keyword.
-/

namespace PotluckApp

/-- `models.py` `Potluck` row (timestamps omitted; no claim concerns them). -/
structure Potluck where
  id : Nat
  name : String
  description : Option String
  url_slug : String
deriving Repr, DecidableEq

/-- `models.py` `Category` row.  The source defines columns `id`,
`potluck_id`, `name`, `description`, `display_order` — and no `max_items`
column, although `schemas.py` and `crud.py` refer to one. -/
structure Category where
  id : Nat
  potluck_id : Nat
  name : String
  description : Option String
  display_order : Nat
deriving Repr, DecidableEq

/-- `models.py` `Item` row. -/
structure Item where
  id : Nat
  category_id : Nat
  name : String
  description : Option String
  claim_limit : Nat
  created_by_admin : Bool
  require_details : Bool
deriving Repr, DecidableEq

/-- `models.py` `Claim` row; `session_id` is nullable. -/
structure Claim where
  id : Nat
  item_id : Nat
  attendee_name : String
  item_details : Option String
  session_id : Option String
deriving Repr, DecidableEq

/-- The relational store: one list of rows per table, plus the id counter the
database uses for freshly inserted rows. -/
structure Store where
  potlucks : List Potluck
  categories : List Category
  items : List Item
  claims : List Claim
  nextId : Nat
deriving Repr, DecidableEq

/-- The per-browser cookie session managed by `SessionMiddleware`
(`app/main.py`): the admin flag and the attendee ownership token
(`user_session_id`), both absent until set.  Flash messages are modelled as
part of the request outcome instead. -/
structure BrowserSession where
  is_admin : Bool
  user_session_id : Option String
deriving Repr, DecidableEq

/-- Unhandled Python exceptions a route body can raise. -/
inductive PyError where
  /-- A call with a keyword argument the callee does not accept, or a
  SQLAlchemy model constructed with a keyword that is not a mapped column. -/
  | typeError
  /-- Reading an attribute the object does not have. -/
  | attributeError
  /-- A pydantic schema constructed with out-of-range field values. -/
  | validationError
deriving Repr, DecidableEq

/-- HTTP-level outcome of one mutation request.  Redirect-with-flash error
messages and 4xx responses are identified by their error class. -/
inductive Outcome where
  /-- 303 redirect carrying a success flash. -/
  | success
  /-- 404: slug or id unresolvable. -/
  | notFound
  /-- 403, or the "only your own claims" / "name doesn't match" flash. -/
  | forbidden
  /-- The "already fully claimed" flash: item or category at its ceiling. -/
  | capacityExceeded
  /-- The "please provide details" flash. -/
  | missingDetails
  /-- An unhandled exception: HTTP 500, no row written. -/
  | serverError (e : PyError)
deriving Repr, DecidableEq

/-- `schemas.py` `CategoryCreate` (validated payload). -/
structure CategoryCreate where
  name : String
  description : Option String
  max_items : Nat
  display_order : Nat
deriving Repr, DecidableEq

/-- `schemas.py` `ItemCreate` (validated payload). -/
structure ItemCreate where
  name : String
  description : Option String
  claim_limit : Nat
  require_details : Bool
deriving Repr, DecidableEq

/-- `schemas.py` `ItemUpdate`: every field optional, only provided fields are
applied by `crud.update_item`. -/
structure ItemUpdate where
  name : Option String
  description : Option String
  claim_limit : Option Nat
  require_details : Option Bool
deriving Repr, DecidableEq

/-- `schemas.py` `ClaimCreate` (validated payload). -/
structure ClaimCreate where
  attendee_name : String
  item_details : Option String
deriving Repr, DecidableEq

/-- The characters Python's default `str.strip()` removes (ASCII part). -/
def pySpace (c : Char) : Bool :=
  c == ' ' || c == '\t' || c == '\n' || c == '\r' || c == '\x0b' || c == '\x0c'

/-- Python `str.strip()`: drop leading and trailing whitespace. -/
def pyStrip (s : String) : String :=
  String.mk (((s.toList.dropWhile pySpace).reverse.dropWhile pySpace).reverse)

/-- Python `str.lower()` (ASCII case fold, matching the names at play). -/
def pyLower (s : String) : String :=
  String.mk (s.toList.map Char.toLower)

/-- Number of item rows with the given `category_id`
(`db.query(Item).filter(Item.category_id == category_id).count()`). -/
def countItems (s : Store) (category_id : Nat) : Nat :=
  (s.items.filter (fun i => i.category_id == category_id)).length

/-- Number of claim rows with the given `item_id`
(`db.query(Claim).filter(Claim.item_id == item_id).count()`). -/
def countClaims (s : Store) (item_id : Nat) : Nat :=
  (s.claims.filter (fun c => c.item_id == item_id)).length

namespace crud

/-- `crud.get_potluck_by_slug`. -/
def get_potluck_by_slug (s : Store) (url_slug : String) : Option Potluck :=
  s.potlucks.find? (fun p => p.url_slug == url_slug)

/-- `crud.get_category`. -/
def get_category (s : Store) (category_id : Nat) : Option Category :=
  s.categories.find? (fun c => c.id == category_id)

/-- `crud.get_item`. -/
def get_item (s : Store) (item_id : Nat) : Option Item :=
  s.items.find? (fun i => i.id == item_id)

/-- `crud.get_claim`. -/
def get_claim (s : Store) (claim_id : Nat) : Option Claim :=
  s.claims.find? (fun c => c.id == claim_id)

/-- The attribute names mapped on `models.Category`: its five columns and two
relationships.  `max_items` is not among them. -/
def categoryAttrs : List String :=
  ["id", "potluck_id", "name", "description", "display_order", "potluck", "items"]

/-- The keyword arguments `crud.create_category` passes to `Category(...)`. -/
def categoryCtorKwargs : List String :=
  ["potluck_id", "name", "description", "max_items", "display_order"]

/-- `crud.create_category`.  SQLAlchemy's declarative constructor raises
`TypeError` when handed a keyword that is not a mapped attribute; the source
passes `max_items`, which `models.Category` does not declare, so the
constructor raises before `db.add` and nothing is persisted. -/
def create_category (s : Store) (p : Potluck) (d : CategoryCreate) :
    Except PyError (Store × Category) :=
  if categoryCtorKwargs.all (fun k => categoryAttrs.contains k) then
    let c : Category :=
      { id := s.nextId, potluck_id := p.id, name := d.name,
        description := d.description, display_order := d.display_order }
    Except.ok ({ s with categories := s.categories ++ [c], nextId := s.nextId + 1 }, c)
  else
    Except.error PyError.typeError

/-- `crud.can_add_item_to_category`.  When the category exists the source
evaluates `category.max_items`; `models.Category` has no such attribute, so
Python raises `AttributeError`. -/
def can_add_item_to_category (s : Store) (category_id : Nat) : Except PyError Bool :=
  match get_category s category_id with
  | none => Except.ok false
  | some _ => Except.error PyError.attributeError

/-- `crud.create_item`: unconditional insert, no capacity check here. -/
def create_item (s : Store) (c : Category) (d : ItemCreate)
    (created_by_admin : Bool) : Store × Item :=
  let it : Item :=
    { id := s.nextId, category_id := c.id, name := d.name,
      description := d.description, claim_limit := d.claim_limit,
      created_by_admin := created_by_admin, require_details := d.require_details }
  ({ s with items := s.items ++ [it], nextId := s.nextId + 1 }, it)

/-- `crud.update_item`: applies exactly the fields provided in the payload to
the row with the item's id. -/
def update_item (s : Store) (it : Item) (d : ItemUpdate) : Store × Item :=
  let it2 : Item :=
    { it with
      name := d.name.getD it.name,
      description := match d.description with
        | some v => some v
        | none => it.description,
      claim_limit := d.claim_limit.getD it.claim_limit,
      require_details := d.require_details.getD it.require_details }
  ({ s with items := s.items.map (fun x => if x.id == it.id then it2 else x) }, it2)

/-- `crud.can_claim_item`: false for a missing item, else the live claim
count compared against the item's `claim_limit`. -/
def can_claim_item (s : Store) (item_id : Nat) : Bool :=
  match get_item s item_id with
  | none => false
  | some it => decide (countClaims s item_id < it.claim_limit)

/-- The parameter names of `crud.create_claim` (`crud.py:185`):
`db`, `item`, `claim_data` — and nothing else. -/
def createClaimParams : List String := ["db", "item", "claim_data"]

/-- `crud.create_claim`: inserts a claim built only from the payload.  The
function never assigns `session_id`, so the column keeps its NULL default. -/
def create_claim (s : Store) (it : Item) (d : ClaimCreate) : Store × Claim :=
  let c : Claim :=
    { id := s.nextId, item_id := it.id, attendee_name := d.attendee_name,
      item_details := d.item_details, session_id := none }
  ({ s with claims := s.claims ++ [c], nextId := s.nextId + 1 }, c)

/-- `crud.delete_claim`: removes the claim row. -/
def delete_claim (s : Store) (cl : Claim) : Store :=
  { s with claims := s.claims.filter (fun x => x.id != cl.id) }

/-- `crud.delete_item`: the ORM relationship `Item.claims` carries
`cascade="all, delete-orphan"`, so the item's claims are deleted with it. -/
def delete_item (s : Store) (it : Item) : Store :=
  { s with
    items := s.items.filter (fun x => x.id != it.id),
    claims := s.claims.filter (fun cl => cl.item_id != it.id) }

/-- `crud.delete_category`: cascades over `Category.items` and each item's
`Item.claims`. -/
def delete_category (s : Store) (c : Category) : Store :=
  let deadItems := s.items.filter (fun i => i.category_id == c.id)
  { s with
    categories := s.categories.filter (fun x => x.id != c.id),
    items := s.items.filter (fun i => i.category_id != c.id),
    claims := s.claims.filter (fun cl => !(deadItems.any (fun i => i.id == cl.item_id))) }

/-- `crud.delete_potluck`: cascades over `Potluck.categories`, each category's
`Category.items` and each item's `Item.claims`. -/
def delete_potluck (s : Store) (p : Potluck) : Store :=
  let deadCats := s.categories.filter (fun c => c.potluck_id == p.id)
  let deadItems := s.items.filter (fun i => deadCats.any (fun c => c.id == i.category_id))
  { potlucks := s.potlucks.filter (fun x => x.id != p.id),
    categories := s.categories.filter (fun c => c.potluck_id != p.id),
    items := s.items.filter (fun i => !(deadCats.any (fun c => c.id == i.category_id))),
    claims := s.claims.filter (fun cl => !(deadItems.any (fun i => i.id == cl.item_id))),
    nextId := s.nextId }

/-- The alphabet `string.ascii_lowercase + string.digits` used by
`crud.generate_url_slug`. -/
def slugChars : List Char := "abcdefghijklmnopqrstuvwxyz0123456789".toList

/-- `secrets.choice(chars)`: the random source is modelled as a stream of
indices into the alphabet, so every drawn character is a member of it. -/
def slugChar (i : Fin 36) : Char :=
  slugChars.get ⟨i.val, Nat.lt_of_lt_of_eq i.isLt (by decide)⟩

/-- One draw of the generation loop: a `len`-character string built from
draws `len*k .. len*k+len-1` of the random stream. -/
def drawSlug (draws : Nat → Fin 36) (len k : Nat) : String :=
  String.mk ((List.range len).map (fun j => slugChar (draws (len * k + j))))

/-- The `while True` loop of `crud.generate_url_slug`, given explicit fuel:
draw, query the store for a potluck already holding the slug, return the slug
once the query comes back empty. -/
def genLoop (s : Store) (draws : Nat → Fin 36) (len : Nat) : Nat → Nat → Option String
  | 0, _ => none
  | fuel + 1, k =>
    let slug := drawSlug draws len k
    if s.potlucks.any (fun p => p.url_slug == slug) then
      genLoop s draws len fuel (k + 1)
    else
      some slug

/-- `crud.generate_url_slug` (default `length=8`). -/
def generate_url_slug (s : Store) (draws : Nat → Fin 36) (fuel : Nat)
    (len : Nat := 8) : Option String :=
  genLoop s draws len fuel 0

end crud

namespace admin

/-- `GET /admin/logout` (`admin.py:39`): `request.session.clear()` empties the
whole session dict, so both the admin flag and the attendee ownership token
are gone afterwards. -/
def admin_logout (_sess : BrowserSession) : BrowserSession :=
  { is_admin := false, user_session_id := none }

/-- `POST /admin/edit/{slug}/category/{id}/add-item` (`admin.py:217`).
`require_admin` yields 403 for a non-admin session; the category is fetched
by id (the slug is only echoed in the redirect); the `ItemCreate` payload is
validated by pydantic (name 1–200 chars, `claim_limit` 1–100); then
`crud.create_item` inserts.  No call to `crud.can_add_item_to_category`
appears anywhere in this handler. -/
def add_item (s : Store) (sess : BrowserSession) (_url_slug : String)
    (category_id : Nat) (item_name item_description : String)
    (claim_limit : Nat) (require_details : Bool) : Store × Outcome :=
  if !sess.is_admin then (s, Outcome.forbidden)
  else
    match crud.get_category s category_id with
    | none => (s, Outcome.notFound)
    | some category =>
      if item_name.length < 1 || item_name.length > 200 ||
          claim_limit < 1 || claim_limit > 100 then
        (s, Outcome.serverError PyError.validationError)
      else
        let r := crud.create_item s category
          { name := item_name, description := some item_description,
            claim_limit := claim_limit, require_details := require_details } true
        (r.1, Outcome.success)

/-- `POST /admin/edit/{slug}/item/{id}/update` (`admin.py:244`): fetches the
item by id, builds an `ItemUpdate` with every field provided from the form,
and applies it through `crud.update_item`.  Existing claims on the item are
not consulted. -/
def update_item (s : Store) (sess : BrowserSession) (_url_slug : String)
    (item_id : Nat) (item_name item_description : String)
    (claim_limit : Nat) (require_details : Bool) : Store × Outcome :=
  if !sess.is_admin then (s, Outcome.forbidden)
  else
    match crud.get_item s item_id with
    | none => (s, Outcome.notFound)
    | some it =>
      if item_name.length < 1 || item_name.length > 200 ||
          claim_limit < 1 || claim_limit > 100 then
        (s, Outcome.serverError PyError.validationError)
      else
        let r := crud.update_item s it
          { name := some item_name, description := some item_description,
            claim_limit := some claim_limit, require_details := some require_details }
        (r.1, Outcome.success)

end admin

namespace potluck

/-- `POST /p/{slug}/claim/{item_id}` (`potluck.py:66`), in source order:
404 for an unknown slug or item id; the `can_claim_item` capacity gate with
the "fully claimed" flash; the `require_details`/empty-details gate with the
"please provide details" flash; then the browser gets a fresh
`secrets.token_urlsafe(32)` ownership token if it has none, the `ClaimCreate`
payload is validated, and the handler calls
`crud.create_claim(db, item, claim_data, session_id=session_id)`.
`crud.create_claim` (`crud.py:185`) accepts no `session_id` keyword, so that
call raises `TypeError` before any insert: HTTP 500, no claim row.  (The
in-request session mutation is kept in the returned session to mirror the
handler body; on the 500 the middleware never emits the cookie.) -/
def claim_item (s : Store) (sess : BrowserSession) (freshToken : String)
    (url_slug : String) (item_id : Nat) (attendee_name item_details : String) :
    Store × BrowserSession × Outcome :=
  match crud.get_potluck_by_slug s url_slug with
  | none => (s, sess, Outcome.notFound)
  | some _ =>
    match crud.get_item s item_id with
    | none => (s, sess, Outcome.notFound)
    | some item =>
      if !crud.can_claim_item s item_id then
        (s, sess, Outcome.capacityExceeded)
      else if item.require_details && pyStrip item_details == "" then
        (s, sess, Outcome.missingDetails)
      else
        let sess2 := match sess.user_session_id with
          | some _ => sess
          | none => { sess with user_session_id := some freshToken }
        if attendee_name.length < 1 || attendee_name.length > 200 ||
            item_details.length > 500 then
          (s, sess2, Outcome.serverError PyError.validationError)
        else if crud.createClaimParams.contains "session_id" then
          let r := crud.create_claim s item
            { attendee_name := attendee_name, item_details := some item_details }
          (r.1, sess2, Outcome.success)
        else
          (s, sess2, Outcome.serverError PyError.typeError)

/-- `POST /p/{slug}/claim/{claim_id}/delete` (`potluck.py:111`), in source
order: 404 for an unknown slug or claim id; reject when the session holds no
ownership token (Python falsiness also rejects an empty-string token) or the
token differs from the claim's stored `session_id`; reject when the
case-folded, whitespace-trimmed names differ; otherwise delete the claim. -/
def delete_claim_public (s : Store) (sess : BrowserSession) (url_slug : String)
    (claim_id : Nat) (verify_name : String) : Store × Outcome :=
  match crud.get_potluck_by_slug s url_slug with
  | none => (s, Outcome.notFound)
  | some _ =>
    match crud.get_claim s claim_id with
    | none => (s, Outcome.notFound)
    | some claim =>
      match sess.user_session_id with
      | none => (s, Outcome.forbidden)
      | some tok =>
        if tok == "" then (s, Outcome.forbidden)
        else if claim.session_id != some tok then (s, Outcome.forbidden)
        else if pyLower (pyStrip claim.attendee_name) != pyLower (pyStrip verify_name) then
          (s, Outcome.forbidden)
        else
          (crud.delete_claim s claim, Outcome.success)

/-- One attendee claim request, for iterating the claim route. -/
structure ClaimRequest where
  sess : BrowserSession
  freshToken : String
  url_slug : String
  item_id : Nat
  attendee_name : String
  item_details : String
deriving Repr, DecidableEq

/-- The store after a sequence of claim-route requests. -/
def runClaimRoute (s : Store) (reqs : List ClaimRequest) : Store :=
  reqs.foldl
    (fun st r =>
      (claim_item st r.sess r.freshToken r.url_slug r.item_id r.attendee_name r.item_details).1)
    s

end potluck

/-- The §3 details invariant: every persisted claim on an item with
`require_details = true` has non-empty whitespace-trimmed `item_details`
(a NULL reads as the empty string). -/
def detailsInvariant (s : Store) : Prop :=
  ∀ it ∈ s.items, it.require_details = true →
    ∀ c ∈ s.claims, c.item_id = it.id → pyStrip (c.item_details.getD "") ≠ ""

/-- Referential integrity: every row's parent id resolves to a present row. -/
def noOrphans (s : Store) : Prop :=
  (∀ c ∈ s.categories, ∃ p ∈ s.potlucks, p.id = c.potluck_id) ∧
  (∀ i ∈ s.items, ∃ c ∈ s.categories, c.id = i.category_id) ∧
  (∀ cl ∈ s.claims, ∃ i ∈ s.items, i.id = cl.item_id)

instance (s : Store) : Decidable (detailsInvariant s) := by
  unfold detailsInvariant; infer_instance

instance (s : Store) : Decidable (noOrphans s) := by
  unfold noOrphans; infer_instance

/-! Concrete fixtures used by scenario theorems and witnesses. -/

/-- A logged-in admin browser session. -/
def adminSess : BrowserSession := { is_admin := true, user_session_id := none }

/-- An anonymous browser session holding no ownership token. -/
def anonSess : BrowserSession := { is_admin := false, user_session_id := none }

/-- Fixture potluck. -/
def P0 : Potluck :=
  { id := 1, name := "Friendsgiving", description := none, url_slug := "abcd1234" }

/-- Fixture category under `P0`. -/
def Cat0 : Category :=
  { id := 10, potluck_id := 1, name := "Mains", description := none, display_order := 0 }

/-- Fixture item under `Cat0`: `claim_limit` 2, details not required. -/
def Item0 : Item :=
  { id := 20, category_id := 10, name := "Turkey", description := none,
    claim_limit := 2, created_by_admin := true, require_details := false }

/-- `Item0` with `require_details = true`. -/
def ItemRD : Item := { Item0 with require_details := true }

/-- Claim on `Item0` owned by token `tokA`. -/
def ClaimA : Claim :=
  { id := 30, item_id := 20, attendee_name := "Ann",
    item_details := some "stuffing", session_id := some "tokA" }

/-- Second claim on `Item0`, owned by token `tokB`. -/
def ClaimB : Claim :=
  { id := 31, item_id := 20, attendee_name := "Bob",
    item_details := none, session_id := some "tokB" }

/-- Claim on `Item0` with empty `item_details`, owned by token `tokA`. -/
def ClaimEmpty : Claim :=
  { id := 30, item_id := 20, attendee_name := "Ann",
    item_details := some "", session_id := some "tokA" }

/-- Store with one item in `Cat0` and no claims. -/
def StoreOneItem : Store :=
  { potlucks := [P0], categories := [Cat0], items := [Item0], claims := [], nextId := 21 }

/-- Store whose item `Item0` (limit 2) already carries two claims. -/
def StoreFull : Store :=
  { potlucks := [P0], categories := [Cat0], items := [Item0],
    claims := [ClaimA, ClaimB], nextId := 32 }

/-- Store with a details-free item carrying one empty-details claim. -/
def StoreEmptyDetails : Store :=
  { potlucks := [P0], categories := [Cat0], items := [Item0],
    claims := [ClaimEmpty], nextId := 31 }

/-- Store with a `require_details` item and no claims. -/
def StoreRD : Store :=
  { potlucks := [P0], categories := [Cat0], items := [ItemRD], claims := [], nextId := 21 }

/-- An empty store. -/
def EmptyStore : Store :=
  { potlucks := [], categories := [], items := [], claims := [], nextId := 1 }

/-- A random stream that always draws index 0 (the character `a`). -/
def drawsZero : Nat → Fin 36 := fun _ => ⟨0, by decide⟩

/-! Claim theorems. -/

/-- C1: the claim states item creation is capacity-gated by `max_items` and a
second item on a full `max_items = 1` category is rejected with
`CapacityExceeded`.  The code violates this: `add_item` never consults
`can_add_item_to_category`, so on a category already holding one item a
further creation succeeds and the category ends with two items — and the
unused checker itself would raise `AttributeError`, `models.Category` having
no `max_items` attribute at all. -/
theorem c1_add_item_bypasses_capacity :
    (admin.add_item StoreOneItem adminSess "abcd1234" 10 "Salad" "" 1 false).2 =
      Outcome.success ∧
    countItems (admin.add_item StoreOneItem adminSess "abcd1234" 10 "Salad" "" 1 false).1 10 = 2 ∧
    crud.can_add_item_to_category StoreOneItem 10 = Except.error PyError.attributeError :=
  ⟨by decide, by decide, rfl⟩

/-- C2: the claim states every `Category` carries a persisted `max_items`
(1–100, default 10) written by `create_category`.  The code violates this:
`models.Category` declares no `max_items` column, so the constructor call in
`crud.create_category` raises `TypeError` for every input and nothing is
persisted. -/
theorem c2_create_category_raises_type_error :
    ∀ (s : Store) (p : Potluck) (d : CategoryCreate),
      crud.create_category s p d = Except.error PyError.typeError :=
  fun _ _ _ => rfl

/-- C3: the claim states a successful attendee claim creation stamps the
browser's session token onto the claim as `session_id`.  The code violates
this: the route passes `session_id=` to `crud.create_claim`, which has no
such parameter, so the call raises `TypeError` and no claim row is created;
moreover `create_claim`'s own body never assigns `session_id`, so even a
direct call leaves it NULL. -/
theorem c3_claim_session_id_never_stamped :
    potluck.claim_item StoreOneItem anonSess "freshTok" "abcd1234" 20 "Ann" "pie" =
      (StoreOneItem, { is_admin := false, user_session_id := some "freshTok" },
        Outcome.serverError PyError.typeError) ∧
    (crud.create_claim StoreOneItem Item0
        { attendee_name := "Ann", item_details := some "pie" }).2.session_id = none :=
  ⟨by decide, rfl⟩

/-- The claim route never changes the store: every rejection path returns the
store untouched, and the creation path dies in the `TypeError` before any
insert. -/
theorem claim_item_fst (s : Store) (sess : BrowserSession) (tok slug : String)
    (iid : Nat) (an d : String) :
    (potluck.claim_item s sess tok slug iid an d).1 = s := by
  unfold potluck.claim_item
  repeat' split
  all_goals first
    | rfl
    | (rename_i h; exact absurd h (by decide))

/-- Iterating the claim route leaves the store untouched. -/
theorem runClaimRoute_fst (reqs : List potluck.ClaimRequest) (s : Store) :
    potluck.runClaimRoute s reqs = s := by
  induction reqs generalizing s with
  | nil => rfl
  | cons r rs ih =>
    show potluck.runClaimRoute
      (potluck.claim_item s r.sess r.freshToken r.url_slug r.item_id
        r.attendee_name r.item_details).1 rs = s
    rw [claim_item_fst]
    exact ih s

/-- C4: the claim-capacity check `can_claim_item` is true exactly when the
live claim count is below the item's `claim_limit`; any sequence of claim
route calls keeps the count of every item at or below its limit; and on an
item at `claim_limit = 2` with two claims a further claim request is rejected
with the capacity error while the item keeps exactly 2 claims. -/
theorem c4_claim_capacity_check_and_bound :
    (∀ (s : Store) (iid : Nat) (it : Item), crud.get_item s iid = some it →
        (crud.can_claim_item s iid = true ↔ countClaims s iid < it.claim_limit)) ∧
    (∀ (s : Store) (reqs : List potluck.ClaimRequest) (iid : Nat) (it : Item),
        crud.get_item s iid = some it →
        countClaims s iid ≤ it.claim_limit →
        countClaims (potluck.runClaimRoute s reqs) iid ≤ it.claim_limit) ∧
    (potluck.claim_item StoreFull { is_admin := false, user_session_id := some "tokC" }
        "fresh" "abcd1234" 20 "Cara" "rolls" =
      (StoreFull, { is_admin := false, user_session_id := some "tokC" },
        Outcome.capacityExceeded) ∧
      countClaims StoreFull 20 = 2) := by
  refine ⟨?_, ?_, by decide, by decide⟩
  · intro s iid it h
    simp [crud.can_claim_item, h]
  · intro s reqs iid it h hle
    rw [runClaimRoute_fst]
    exact hle

/-- Witness for C4 at the two-claim store. -/
theorem c4_claim_capacity_check_and_bound_witness :
    (crud.can_claim_item StoreFull 20 = true ↔ countClaims StoreFull 20 < Item0.claim_limit) ∧
    countClaims
      (potluck.runClaimRoute StoreFull
        [{ sess := anonSess, freshToken := "fresh", url_slug := "abcd1234",
           item_id := 20, attendee_name := "Cara", item_details := "rolls" }]) 20 ≤
      Item0.claim_limit :=
  ⟨c4_claim_capacity_check_and_bound.1 StoreFull 20 Item0 (by decide),
   c4_claim_capacity_check_and_bound.2.1 StoreFull
     [{ sess := anonSess, freshToken := "fresh", url_slug := "abcd1234",
        item_id := 20, attendee_name := "Cara", item_details := "rolls" }]
     20 Item0 (by decide) (by decide)⟩

/-- C5 counterexample: the claim states the non-empty-details invariant for
`require_details` items survives every operation sequence, item updates
included.  It does not: on a store satisfying the invariant — a
`require_details = false` item carrying a claim with empty `item_details` —
one admin item update turning `require_details` on succeeds and leaves that
empty-details claim persisted, violating the invariant. -/
theorem c5_item_update_breaks_details_invariant :
    detailsInvariant StoreEmptyDetails ∧
    (admin.update_item StoreEmptyDetails adminSess "abcd1234" 20 "Turkey" "" 2 true).2 =
      Outcome.success ∧
    ¬ detailsInvariant
        (admin.update_item StoreEmptyDetails adminSess "abcd1234" 20 "Turkey" "" 2 true).1 :=
  ⟨by decide, by decide, by decide⟩

/-- Deleting a claim row cannot break the details invariant: the surviving
claims are a subset of the old ones and the items are untouched. -/
theorem delete_claim_preserves_details (s : Store) (cl : Claim) :
    detailsInvariant s → detailsInvariant (crud.delete_claim s cl) := by
  intro h it hit hrd c hc hcid
  exact h it hit hrd c (List.mem_of_mem_filter hc) hcid

/-- The attendee deletion route leaves the store untouched or deletes the
fetched claim. -/
theorem delete_claim_public_fst_cases (s : Store) (sess : BrowserSession)
    (slug : String) (cid : Nat) (vn : String) :
    (potluck.delete_claim_public s sess slug cid vn).1 = s ∨
    ∃ cl, (potluck.delete_claim_public s sess slug cid vn).1 = crud.delete_claim s cl := by
  unfold potluck.delete_claim_public
  repeat' split
  all_goals first
    | exact Or.inl rfl
    | exact Or.inr ⟨_, rfl⟩

/-- C5 as amended: the details invariant — every persisted claim on an item
with `require_details = true` has non-empty stripped `item_details` — is
preserved by the attendee claim-creation route and the attendee
claim-deletion route; sequences containing item updates (or claim updates)
are excluded, since an update enabling `require_details` does not
retroactively validate existing claims. -/
theorem c5_attendee_claim_routes_preserve_details_invariant :
    (∀ (s : Store) (sess : BrowserSession) (tok slug : String) (iid : Nat)
        (an d : String), detailsInvariant s →
        detailsInvariant (potluck.claim_item s sess tok slug iid an d).1) ∧
    (∀ (s : Store) (sess : BrowserSession) (slug : String) (cid : Nat)
        (vn : String), detailsInvariant s →
        detailsInvariant (potluck.delete_claim_public s sess slug cid vn).1) := by
  constructor
  · intro s sess tok slug iid an d h
    rw [claim_item_fst]
    exact h
  · intro s sess slug cid vn h
    rcases delete_claim_public_fst_cases s sess slug cid vn with heq | ⟨cl, heq⟩
    · rw [heq]; exact h
    · rw [heq]; exact delete_claim_preserves_details s cl h

/-- Witness for the amended C5 on concrete stores. -/
theorem c5_attendee_claim_routes_preserve_details_invariant_witness :
    detailsInvariant
      (potluck.claim_item StoreRD anonSess "fresh" "abcd1234" 20 "Ann" "pie").1 ∧
    detailsInvariant
      (potluck.delete_claim_public StoreEmptyDetails
        { is_admin := false, user_session_id := some "tokA" } "abcd1234" 30 "Ann").1 :=
  ⟨c5_attendee_claim_routes_preserve_details_invariant.1 StoreRD anonSess
      "fresh" "abcd1234" 20 "Ann" "pie" (by decide),
   c5_attendee_claim_routes_preserve_details_invariant.2 StoreEmptyDetails
      { is_admin := false, user_session_id := some "tokA" } "abcd1234" 30 "Ann" (by decide)⟩

/-- C6: on an item with `require_details = true` (and free capacity, which
the route checks first), a claim submitted with empty or whitespace-only
`item_details` is rejected with the missing-details error and the store —
and the browser session — are returned unchanged: no claim row is created. -/
theorem c6_empty_details_rejected :
    ∀ (s : Store) (sess : BrowserSession) (tok slug : String) (iid : Nat)
      (an d : String) (p : Potluck) (it : Item),
      crud.get_potluck_by_slug s slug = some p →
      crud.get_item s iid = some it →
      crud.can_claim_item s iid = true →
      it.require_details = true →
      pyStrip d = "" →
      potluck.claim_item s sess tok slug iid an d = (s, sess, Outcome.missingDetails) := by
  intro s sess tok slug iid an d p it h1 h2 h3 h4 h5
  simp [potluck.claim_item, h1, h2, h3, h4, h5]

/-- Witness for C6: a whitespace-only details field on the
`require_details` fixture item. -/
theorem c6_empty_details_rejected_witness :
    potluck.claim_item StoreRD anonSess "fresh" "abcd1234" 20 "Ann" "   " =
      (StoreRD, anonSess, Outcome.missingDetails) :=
  c6_empty_details_rejected StoreRD anonSess "fresh" "abcd1234" 20 "Ann" "   "
    P0 ItemRD (by decide) (by decide) (by decide) (by decide) (by decide)

/-- C7: given the request resolves (slug and claim id found) and the browser
session is either empty or holds a token of the issued kind (non-empty, as
`secrets.token_urlsafe` produces), the attendee deletion route deletes the
claim exactly when the session token equals the claim's stored `session_id`
and the supplied name matches the claim's `attendee_name` after stripping
and case-folding; when either check fails the store is returned unchanged
with the forbidden outcome. -/
theorem c7_delete_claim_requires_token_and_name :
    ∀ (s : Store) (sess : BrowserSession) (slug : String) (cid : Nat)
      (vn : String) (p : Potluck) (cl : Claim),
      crud.get_potluck_by_slug s slug = some p →
      crud.get_claim s cid = some cl →
      sess.user_session_id ≠ some "" →
      (((∃ t, sess.user_session_id = some t ∧ cl.session_id = some t) ∧
          pyLower (pyStrip cl.attendee_name) = pyLower (pyStrip vn)) →
        potluck.delete_claim_public s sess slug cid vn =
          (crud.delete_claim s cl, Outcome.success)) ∧
      ((¬ ((∃ t, sess.user_session_id = some t ∧ cl.session_id = some t) ∧
          pyLower (pyStrip cl.attendee_name) = pyLower (pyStrip vn))) →
        potluck.delete_claim_public s sess slug cid vn = (s, Outcome.forbidden)) := by
  intro s sess slug cid vn p cl h1 h2 hne
  cases hsid : sess.user_session_id with
  | none =>
    constructor
    · rintro ⟨⟨t, ht, _⟩, _⟩
      cases ht
    · intro _
      simp [potluck.delete_claim_public, h1, h2, hsid]
  | some tok =>
    have htok : ¬ tok = "" := by
      intro h
      exact hne (by rw [hsid, h])
    by_cases hcl : cl.session_id = some tok
    · by_cases hnm : pyLower (pyStrip cl.attendee_name) = pyLower (pyStrip vn)
      · constructor
        · intro _
          simp [potluck.delete_claim_public, h1, h2, hsid, htok, hcl, hnm]
        · intro hno
          exact absurd ⟨⟨tok, rfl, hcl⟩, hnm⟩ hno
      · constructor
        · rintro ⟨_, hnm2⟩
          exact absurd hnm2 hnm
        · intro _
          simp [potluck.delete_claim_public, h1, h2, hsid, htok, hcl, hnm]
    · constructor
      · rintro ⟨⟨t, ht, hclt⟩, _⟩
        cases ht
        exact absurd hclt hcl
      · intro _
        simp [potluck.delete_claim_public, h1, h2, hsid, htok, hcl]

/-- Witness for C7: the owner of the fixture claim, supplying the name with
different casing and padding, deletes it. -/
theorem c7_delete_claim_requires_token_and_name_witness :
    potluck.delete_claim_public StoreEmptyDetails
        { is_admin := false, user_session_id := some "tokA" } "abcd1234" 30 " ANN " =
      (crud.delete_claim StoreEmptyDetails ClaimEmpty, Outcome.success) :=
  (c7_delete_claim_requires_token_and_name StoreEmptyDetails
      { is_admin := false, user_session_id := some "tokA" } "abcd1234" 30 " ANN "
      P0 ClaimEmpty (by decide) (by decide) (by decide)).1
    ⟨⟨"tokA", rfl, by decide⟩, by decide⟩

/-- Soundness of the slug generation loop: whenever it returns a slug, no
potluck in the store holds that slug, the slug has exactly `len` characters,
and every character comes from the generation alphabet. -/
theorem genLoop_sound (s : Store) (draws : Nat → Fin 36) (len : Nat) :
    ∀ (fuel k : Nat) (slug : String),
      crud.genLoop s draws len fuel k = some slug →
      (∀ p ∈ s.potlucks, p.url_slug ≠ slug) ∧
      slug.length = len ∧
      ∀ ch ∈ slug.toList, ch ∈ crud.slugChars := by
  intro fuel
  induction fuel with
  | zero =>
    intro k slug h
    exact absurd h (by simp [crud.genLoop])
  | succ n ih =>
    intro k slug h
    rw [crud.genLoop] at h
    split at h
    · exact ih (k + 1) slug h
    · rename_i hany
      injection h with h
      subst h
      refine ⟨?_, ?_, ?_⟩
      · intro p hp heq
        exact hany (List.any_eq_true.2 ⟨p, hp, by simp [heq]⟩)
      · simp [crud.drawSlug, String.length]
      · intro ch hch
        simp only [crud.drawSlug, String.toList, String.data] at hch
        rcases List.mem_map.1 hch with ⟨j, _, hj⟩
        rw [← hj]
        exact List.get_mem _ _ _

/-- C8: whenever `generate_url_slug` (at its default length 8) returns a
slug, that slug is not the `url_slug` of any potluck present in the store,
and it is exactly 8 characters drawn from `a`–`z`, `0`–`9`. -/
theorem c8_slug_fresh_and_wellformed :
    ∀ (s : Store) (draws : Nat → Fin 36) (fuel : Nat) (slug : String),
      crud.generate_url_slug s draws fuel = some slug →
      (∀ p ∈ s.potlucks, p.url_slug ≠ slug) ∧
      slug.length = 8 ∧
      ∀ ch ∈ slug.toList, ch ∈ crud.slugChars :=
  fun s draws fuel slug h => genLoop_sound s draws 8 fuel 0 slug h

/-- Witness for C8: on the empty store the all-`a` draw stream yields
`aaaaaaaa` in one round. -/
theorem c8_slug_fresh_and_wellformed_witness :
    (∀ p ∈ EmptyStore.potlucks, p.url_slug ≠ "aaaaaaaa") ∧
    "aaaaaaaa".length = 8 ∧
    ∀ ch ∈ "aaaaaaaa".toList, ch ∈ crud.slugChars :=
  c8_slug_fresh_and_wellformed EmptyStore drawsZero 1 "aaaaaaaa" (by decide)

/-- Cascading potluck deletion preserves referential integrity. -/
theorem delete_potluck_no_orphans (s : Store) (p : Potluck) (h : noOrphans s) :
    noOrphans (crud.delete_potluck s p) := by
  obtain ⟨hc, hi, hcl⟩ := h
  refine ⟨?_, ?_, ?_⟩
  · intro c hcm
    have hm : c ∈ s.categories.filter (fun c => c.potluck_id != p.id) := hcm
    obtain ⟨hc1, hc2⟩ := List.mem_filter.1 hm
    obtain ⟨q, hq, hqid⟩ := hc c hc1
    refine ⟨q, ?_, hqid⟩
    show q ∈ s.potlucks.filter (fun x => x.id != p.id)
    refine List.mem_filter.2 ⟨hq, ?_⟩
    rw [bne_iff_ne] at hc2 ⊢
    rw [hqid]
    exact hc2
  · intro i him
    have hm : i ∈ s.items.filter
        (fun i => !((s.categories.filter (fun c => c.potluck_id == p.id)).any
          (fun c => c.id == i.category_id))) := him
    obtain ⟨hi1, hi2⟩ := List.mem_filter.1 hm
    obtain ⟨c0, hc0, hc0id⟩ := hi i hi1
    refine ⟨c0, ?_, hc0id⟩
    show c0 ∈ s.categories.filter (fun c => c.potluck_id != p.id)
    refine List.mem_filter.2 ⟨hc0, ?_⟩
    rw [bne_iff_ne]
    intro hpid
    rw [Bool.not_eq_true'] at hi2
    have hany : (s.categories.filter (fun c => c.potluck_id == p.id)).any
        (fun c => c.id == i.category_id) = true :=
      List.any_eq_true.2
        ⟨c0, List.mem_filter.2 ⟨hc0, by simp [hpid]⟩, by simp [hc0id]⟩
    rw [hi2] at hany
    cases hany
  · intro cl hclm
    have hm : cl ∈ s.claims.filter
        (fun cl => !((s.items.filter
            (fun i => (s.categories.filter (fun c => c.potluck_id == p.id)).any
              (fun c => c.id == i.category_id))).any
          (fun i => i.id == cl.item_id))) := hclm
    obtain ⟨h1, h2⟩ := List.mem_filter.1 hm
    obtain ⟨i0, hi0, hi0id⟩ := hcl cl h1
    refine ⟨i0, ?_, hi0id⟩
    show i0 ∈ s.items.filter
      (fun i => !((s.categories.filter (fun c => c.potluck_id == p.id)).any
        (fun c => c.id == i.category_id)))
    refine List.mem_filter.2 ⟨hi0, ?_⟩
    rw [Bool.not_eq_true']
    cases hany : (s.categories.filter (fun c => c.potluck_id == p.id)).any
        (fun c => c.id == i0.category_id) with
    | false => rfl
    | true =>
      exfalso
      rw [Bool.not_eq_true'] at h2
      have htrue : (s.items.filter
          (fun i => (s.categories.filter (fun c => c.potluck_id == p.id)).any
            (fun c => c.id == i.category_id))).any
          (fun i => i.id == cl.item_id) = true :=
        List.any_eq_true.2 ⟨i0, List.mem_filter.2 ⟨hi0, hany⟩, by simp [hi0id]⟩
      rw [h2] at htrue
      cases htrue

/-- Cascading category deletion preserves referential integrity. -/
theorem delete_category_no_orphans (s : Store) (c : Category) (h : noOrphans s) :
    noOrphans (crud.delete_category s c) := by
  obtain ⟨hc, hi, hcl⟩ := h
  refine ⟨?_, ?_, ?_⟩
  · intro c2 hcm
    have hm : c2 ∈ s.categories.filter (fun x => x.id != c.id) := hcm
    exact hc c2 (List.mem_filter.1 hm).1
  · intro i him
    have hm : i ∈ s.items.filter (fun i => i.category_id != c.id) := him
    obtain ⟨hi1, hi2⟩ := List.mem_filter.1 hm
    obtain ⟨c0, hc0, hc0id⟩ := hi i hi1
    refine ⟨c0, ?_, hc0id⟩
    show c0 ∈ s.categories.filter (fun x => x.id != c.id)
    refine List.mem_filter.2 ⟨hc0, ?_⟩
    rw [bne_iff_ne] at hi2 ⊢
    rw [hc0id]
    exact hi2
  · intro cl hclm
    have hm : cl ∈ s.claims.filter
        (fun cl => !((s.items.filter (fun i => i.category_id == c.id)).any
          (fun i => i.id == cl.item_id))) := hclm
    obtain ⟨h1, h2⟩ := List.mem_filter.1 hm
    obtain ⟨i0, hi0, hi0id⟩ := hcl cl h1
    refine ⟨i0, ?_, hi0id⟩
    show i0 ∈ s.items.filter (fun i => i.category_id != c.id)
    refine List.mem_filter.2 ⟨hi0, ?_⟩
    rw [bne_iff_ne]
    intro hcid
    rw [Bool.not_eq_true'] at h2
    have htrue : (s.items.filter (fun i => i.category_id == c.id)).any
        (fun i => i.id == cl.item_id) = true :=
      List.any_eq_true.2 ⟨i0, List.mem_filter.2 ⟨hi0, by simp [hcid]⟩, by simp [hi0id]⟩
    rw [h2] at htrue
    cases htrue

/-- Cascading item deletion preserves referential integrity. -/
theorem delete_item_no_orphans (s : Store) (it : Item) (h : noOrphans s) :
    noOrphans (crud.delete_item s it) := by
  obtain ⟨hc, hi, hcl⟩ := h
  refine ⟨?_, ?_, ?_⟩
  · intro c2 hcm
    exact hc c2 hcm
  · intro i him
    have hm : i ∈ s.items.filter (fun x => x.id != it.id) := him
    exact hi i (List.mem_filter.1 hm).1
  · intro cl hclm
    have hm : cl ∈ s.claims.filter (fun x => x.item_id != it.id) := hclm
    obtain ⟨h1, h2⟩ := List.mem_filter.1 hm
    obtain ⟨i0, hi0, hi0id⟩ := hcl cl h1
    refine ⟨i0, ?_, hi0id⟩
    show i0 ∈ s.items.filter (fun x => x.id != it.id)
    refine List.mem_filter.2 ⟨hi0, ?_⟩
    rw [bne_iff_ne] at h2 ⊢
    rw [hi0id]
    exact h2

/-- Claim deletion preserves referential integrity. -/
theorem delete_claim_no_orphans (s : Store) (cl : Claim) (h : noOrphans s) :
    noOrphans (crud.delete_claim s cl) := by
  obtain ⟨hc, hi, hcl⟩ := h
  refine ⟨fun c2 hcm => hc c2 hcm, fun i him => hi i him, ?_⟩
  intro c2 hclm
  have hm : c2 ∈ s.claims.filter (fun x => x.id != cl.id) := hclm
  exact hcl c2 (List.mem_filter.1 hm).1

/-- C9: deleting a potluck removes it together with every category beneath
it, and every delete operation — potluck, category, item, claim — maps an
orphan-free store to an orphan-free store: no surviving row's parent id
refers to a deleted entity. -/
theorem c9_cascade_deletes_leave_no_orphans :
    (∀ (s : Store) (p : Potluck), noOrphans s →
        (∀ q ∈ (crud.delete_potluck s p).potlucks, q.id ≠ p.id) ∧
        (∀ c ∈ (crud.delete_potluck s p).categories, c.potluck_id ≠ p.id) ∧
        noOrphans (crud.delete_potluck s p)) ∧
    (∀ (s : Store) (c : Category), noOrphans s → noOrphans (crud.delete_category s c)) ∧
    (∀ (s : Store) (it : Item), noOrphans s → noOrphans (crud.delete_item s it)) ∧
    (∀ (s : Store) (cl : Claim), noOrphans s → noOrphans (crud.delete_claim s cl)) := by
  refine ⟨?_, delete_category_no_orphans, delete_item_no_orphans, delete_claim_no_orphans⟩
  intro s p h
  refine ⟨?_, ?_, delete_potluck_no_orphans s p h⟩
  · intro q hq
    have hm : q ∈ s.potlucks.filter (fun x => x.id != p.id) := hq
    have := (List.mem_filter.1 hm).2
    rwa [bne_iff_ne] at this
  · intro c hcm
    have hm : c ∈ s.categories.filter (fun c => c.potluck_id != p.id) := hcm
    have := (List.mem_filter.1 hm).2
    rwa [bne_iff_ne] at this

/-- Witness for C9 on the populated fixture store. -/
theorem c9_cascade_deletes_leave_no_orphans_witness :
    ((∀ q ∈ (crud.delete_potluck StoreFull P0).potlucks, q.id ≠ P0.id) ∧
     (∀ c ∈ (crud.delete_potluck StoreFull P0).categories, c.potluck_id ≠ P0.id) ∧
     noOrphans (crud.delete_potluck StoreFull P0)) ∧
    noOrphans (crud.delete_category StoreFull Cat0) ∧
    noOrphans (crud.delete_item StoreFull Item0) ∧
    noOrphans (crud.delete_claim StoreFull ClaimA) :=
  ⟨c9_cascade_deletes_leave_no_orphans.1 StoreFull P0 (by decide),
   c9_cascade_deletes_leave_no_orphans.2.1 StoreFull Cat0 (by decide),
   c9_cascade_deletes_leave_no_orphans.2.2.1 StoreFull Item0 (by decide),
   c9_cascade_deletes_leave_no_orphans.2.2.2 StoreFull ClaimA (by decide)⟩

/-- C10: `admin_logout` clears the whole browser session — the admin flag
and the attendee ownership token `user_session_id` alike — so on any
resolvable claim a deletion request from the logged-out browser fails the
session-token check with the forbidden outcome and the store is unchanged. -/
theorem c10_admin_logout_clears_attendee_token :
    (∀ sess : BrowserSession,
        (admin.admin_logout sess).user_session_id = none ∧
        (admin.admin_logout sess).is_admin = false) ∧
    (∀ (s : Store) (sess : BrowserSession) (slug : String) (cid : Nat)
        (vn : String) (p : Potluck) (cl : Claim),
        crud.get_potluck_by_slug s slug = some p →
        crud.get_claim s cid = some cl →
        potluck.delete_claim_public s (admin.admin_logout sess) slug cid vn =
          (s, Outcome.forbidden)) := by
  refine ⟨fun sess => ⟨rfl, rfl⟩, ?_⟩
  intro s sess slug cid vn p cl h1 h2
  simp [potluck.delete_claim_public, admin.admin_logout, h1, h2]

/-- Witness for C10: the browser owning the fixture claim logs out of admin
and can no longer delete its claim. -/
theorem c10_admin_logout_clears_attendee_token_witness :
    potluck.delete_claim_public StoreEmptyDetails
        (admin.admin_logout { is_admin := true, user_session_id := some "tokA" })
        "abcd1234" 30 "Ann" =
      (StoreEmptyDetails, Outcome.forbidden) :=
  c10_admin_logout_clears_attendee_token.2 StoreEmptyDetails
    { is_admin := true, user_session_id := some "tokA" } "abcd1234" 30 "Ann"
    P0 ClaimEmpty (by decide) (by decide)

end PotluckApp
